import Mathlib

/-!
Verification of the camera-navigation and exhibit-focus core of the
Three.js virtual-museum application.

The development is a shallow embedding of the JavaScript sources:

* `src/js/navigation.js` — room table, camera transition state,
  `navigateToRoom`, `updateNavigation`, `cancelNavigation`;
* `src/js/config.js` — the `CONFIG.navigation` and `CONFIG.tour` constants;
* `src/js/interactions.js` — focus/tour/keyboard state and handlers
  (module-level mutable variables become fields of an explicit state record,
  DOM reads/writes become boolean fields, a thrown JavaScript exception is
  modelled as a `Bool` flag returned next to the state that holds exactly the
  mutations performed before the throw);
* `src/js/portraits.js` — the portrait placement arithmetic
  (`calculatePosition`, `build`) and the 24-entry `exhibits` array;
* `src/unnamed/part_001` — a second revision of `interactions.js` present in
  the repository, whose arrow-key handler and tour guards differ from
  `src/js/interactions.js`; where relevant both are embedded.

Numbers are embedded as exact rationals (`ℚ`); the JavaScript `%` operator
on integers is embedded as truncated remainder (`jsRem`).
-/

namespace Museum

/-- A 3-component vector (`THREE.Vector3`) with rational coordinates. -/
structure Vec3 where
  x : ℚ
  y : ℚ
  z : ℚ
deriving DecidableEq, Repr

/-- `THREE.Vector3.lerpVectors(a, b, t)`: componentwise `a + (b - a) * t`. -/
def lerpVectors (a b : Vec3) (t : ℚ) : Vec3 :=
  ⟨a.x + (b.x - a.x) * t, a.y + (b.y - a.y) * t, a.z + (b.z - a.z) * t⟩

/-- Room facing direction (`facing` field in `roomPositions`). -/
inductive Facing where
  | front
  | left
  | right
deriving DecidableEq, Repr

/-- An entry of the `roomPositions` table in `src/js/navigation.js`. -/
structure RoomPos where
  x : ℚ
  z : ℚ
  facing : Facing
deriving DecidableEq, Repr

/-- The `roomPositions` object of `src/js/navigation.js` (lines 16-24),
in property-insertion order (the order `Object.entries` iterates). -/
def roomPositionsList : List (String × RoomPos) :=
  [ ("entrance",      ⟨0, 18, .front⟩),
    ("historical",    ⟨-10, 0, .right⟩),
    ("scientists",    ⟨-10, -14, .right⟩),
    ("actors",        ⟨-10, -28, .right⟩),
    ("international", ⟨10, 0, .left⟩),
    ("singers",       ⟨10, -14, .left⟩),
    ("events",        ⟨10, -28, .left⟩) ]

/-- `roomPositions[roomId]`: key lookup, `undefined` becomes `none`. -/
def roomPositions (roomId : String) : Option RoomPos :=
  (roomPositionsList.find? (fun e => e.1 == roomId)).map Prod.snd

/-- `CONFIG.navigation` from `src/js/config.js` (lines 156-165). -/
structure NavigationConfig where
  speed : ℚ
  roomOffsetDistance : ℚ
  roomViewHeight : ℚ
  lookAtHeight : ℚ
  entranceDistance : ℚ
deriving DecidableEq, Repr

/-- `CONFIG.tour` from `src/js/config.js` (lines 170-174). -/
structure TourConfig where
  intervalDuration : ℕ
deriving DecidableEq, Repr

/-- The slice of `CONFIG` the navigation/interaction core reads. -/
structure Config where
  navigation : NavigationConfig
  tour : TourConfig
deriving DecidableEq, Repr

/-- The concrete values of `src/js/config.js`:
`speed: 0.012`, `roomOffsetDistance: 8`, `roomViewHeight: 4`,
`lookAtHeight: 3`, `entranceDistance: 15`, `tour.intervalDuration: 5000`. -/
def CONFIG : Config :=
  { navigation :=
      { speed := 3/250
        roomOffsetDistance := 8
        roomViewHeight := 4
        lookAtHeight := 3
        entranceDistance := 15 }
    tour := { intervalDuration := 5000 } }

/-- The module-level navigation state of `src/js/navigation.js`
(lines 26-34) together with the camera pose it mutates
(`camera.position`, `controls.target` from `scene.js`) and the
room-button UI affordance (`.room-btn.active`).  The four `navStart…`/
`navEnd…` vectors are `null` until the first request in JavaScript; they are
embedded as plain vectors because the code only reads them while a
transition is active, after they have been assigned. -/
structure NavState where
  navigationTarget : Option (Vec3 × Vec3)
  isNavigating : Bool
  navProgress : ℚ
  navStartPos : Vec3
  navStartTarget : Vec3
  navEndPos : Vec3
  navEndTarget : Vec3
  navCrossingSides : Bool
  cameraPos : Vec3
  controlsTarget : Vec3
  activeRoomBtn : Option String
deriving DecidableEq, Repr

/-- `navigateToRoom(roomId, …)` from `src/js/navigation.js` (lines 48-97),
restricted to its effect on the navigation state and camera pose.  The
`clearFocusCallback` argument concerns the focus controller and is handled
in the interaction layer (`navigateToRoomWith`).  An unknown `roomId` makes
`roomPositions[roomId]` undefined and the function returns at once. -/
def navigateToRoom (roomId : String) (s : NavState) : NavState :=
  match roomPositions roomId with
  | none => s
  | some roomPos =>
    let cameraX : ℚ :=
      match roomPos.facing with
      | .right => roomPos.x + CONFIG.navigation.roomOffsetDistance
      | .left  => roomPos.x - CONFIG.navigation.roomOffsetDistance
      | .front => roomPos.x
    let cameraZ : ℚ :=
      match roomPos.facing with
      | .right => roomPos.z
      | .left  => roomPos.z
      | .front => roomPos.z + CONFIG.navigation.entranceDistance
    let lookAtZ : ℚ :=
      match roomPos.facing with
      | .right => roomPos.z
      | .left  => roomPos.z
      | .front => roomPos.z - CONFIG.navigation.entranceDistance
    let navStartPos := s.cameraPos
    let navEndPos : Vec3 := ⟨cameraX, CONFIG.navigation.roomViewHeight, cameraZ⟩
    let navEndTarget : Vec3 := ⟨roomPos.x, CONFIG.navigation.lookAtHeight, lookAtZ⟩
    { s with
      navStartPos := navStartPos
      navStartTarget := s.controlsTarget
      navEndPos := navEndPos
      navEndTarget := navEndTarget
      navCrossingSides :=
        decide ((navStartPos.x < 0 ∧ navEndPos.x > 0) ∨ (navStartPos.x > 0 ∧ navEndPos.x < 0))
      isNavigating := true
      navProgress := 0
      navigationTarget := some (navEndPos, navEndTarget)
      activeRoomBtn := some roomId }

/-- The easing function of `updateNavigation` (line 113):
`t < 0.5 ? 2*t*t : 1 - Math.pow(-2*t + 2, 2) / 2`. -/
def easeInOutQuad (t : ℚ) : ℚ :=
  if t < 1/2 then 2 * t * t else 1 - (-2 * t + 2)^2 / 2

/-- The interpolation block of `updateNavigation` (lines 113-144) as a
function of the raw progress `p`: the camera position and look-at target the
tick assigns when the transition state is `s` and `navProgress` is `p`
(before the completion snap). -/
def navSample (s : NavState) (p : ℚ) : Vec3 × Vec3 :=
  let t := easeInOutQuad p
  if s.navCrossingSides then
    let midZ := (s.navStartPos.z + s.navEndPos.z) / 2
    let midPoint : Vec3 := ⟨0, CONFIG.navigation.roomViewHeight, midZ⟩
    if t < 1/2 then
      let t2 := t * 2
      (lerpVectors s.navStartPos midPoint t2,
       ⟨s.navStartTarget.x * (1 - t2), CONFIG.navigation.lookAtHeight, midZ⟩)
    else
      let t2 := (t - 1/2) * 2
      (lerpVectors midPoint s.navEndPos t2,
       lerpVectors ⟨0, CONFIG.navigation.lookAtHeight, midZ⟩ s.navEndTarget t2)
  else
    (lerpVectors s.navStartPos s.navEndPos t,
     lerpVectors s.navStartTarget s.navEndTarget t)

/-- `updateNavigation()` from `src/js/navigation.js` (lines 102-151): guard,
progress advance by the constant `0.012`, clamp-and-deactivate at `1`,
eased interpolation, and the final snap to the destination pose. -/
def updateNavigation (s : NavState) : NavState :=
  if !s.isNavigating || s.navigationTarget.isNone then s
  else
    let p0 := s.navProgress + 3/250
    let navProgress := if p0 ≥ 1 then 1 else p0
    let isNavigating := if p0 ≥ 1 then false else s.isNavigating
    let interp := navSample s navProgress
    let pose := if p0 ≥ 1 then (s.navEndPos, s.navEndTarget) else interp
    { s with
      navProgress := navProgress
      isNavigating := isNavigating
      cameraPos := pose.1
      controlsTarget := pose.2 }

/-- `cancelNavigation()` from `src/js/navigation.js` (lines 156-160). -/
def cancelNavigation (s : NavState) : NavState :=
  { s with
    isNavigating := false
    navigationTarget := none
    activeRoomBtn := none }

/-- The camera pose at startup (`CONFIG.camera.initialPosition` and
`CONFIG.controls.initialTarget`), used as a concrete sample state. -/
def initNavState : NavState :=
  { navigationTarget := none
    isNavigating := false
    navProgress := 0
    navStartPos := ⟨0, 0, 0⟩
    navStartTarget := ⟨0, 0, 0⟩
    navEndPos := ⟨0, 0, 0⟩
    navEndTarget := ⟨0, 0, 0⟩
    navCrossingSides := false
    cameraPos := ⟨0, 4, 22⟩
    controlsTarget := ⟨0, 3, 3⟩
    activeRoomBtn := none }

/-- A tick is a pure no-op once `isNavigating` is false (the guard on
line 103 of `src/js/navigation.js`). -/
theorem updateNavigation_inactive (s : NavState) (h : s.isNavigating = false) :
    updateNavigation s = s := by
  unfold updateNavigation
  simp [h]

/-- While a transition is active and not yet complete, a tick advances the
progress by `0.012` and assigns the interpolated pose. -/
theorem updateNavigation_active_pose (s : NavState) (tgt : Vec3 × Vec3)
    (h1 : s.isNavigating = true) (h2 : s.navigationTarget = some tgt)
    (h3 : ¬ (1 : ℚ) ≤ s.navProgress + 3/250) :
    (updateNavigation s).cameraPos = (navSample s (s.navProgress + 3/250)).1 ∧
    (updateNavigation s).controlsTarget = (navSample s (s.navProgress + 3/250)).2 := by
  unfold updateNavigation
  simp [h1, h2, ge_iff_le, h3]

/-- C7: for every room identifier not in the known room table,
`navigateToRoom` is a silent no-op: it returns (no exception) and leaves the
camera pose, the look-at target, the `isNavigating` flag and all transition
state (start/end poses, progress, `navigationTarget`) unchanged. -/
theorem navigateToRoom_unknown_noop (roomId : String) (s : NavState)
    (h : roomPositions roomId = none) : navigateToRoom roomId s = s := by
  unfold navigateToRoom
  rw [h]

/-- Witness for C7 at the concrete unknown room identifier `"garden"`. -/
theorem navigateToRoom_unknown_noop_witness :
    roomPositions "garden" = none ∧
    navigateToRoom "garden" initNavState = initNavState :=
  ⟨by decide, navigateToRoom_unknown_noop "garden" initNavState (by decide)⟩

/-- C9: `cancelNavigation` marks navigation inactive, clears the transition
target and the room-button affordance, and leaves the camera position and
look-at target exactly where they were. -/
theorem cancelNavigation_spec (s : NavState) :
    (cancelNavigation s).isNavigating = false ∧
    (cancelNavigation s).navigationTarget = none ∧
    (cancelNavigation s).activeRoomBtn = none ∧
    (cancelNavigation s).cameraPos = s.cameraPos ∧
    (cancelNavigation s).controlsTarget = s.controlsTarget :=
  ⟨rfl, rfl, rfl, rfl, rfl⟩

/-- C10: for every known room and every starting pose, the destination pose
computed by `navigateToRoom` has camera height `CONFIG.navigation.roomViewHeight`
and look-at height `CONFIG.navigation.lookAtHeight`, which are `4` and `3`. -/
theorem navigateToRoom_fixed_heights (roomId : String) (rp : RoomPos) (s : NavState)
    (h : roomPositions roomId = some rp) :
    (navigateToRoom roomId s).navEndPos.y = CONFIG.navigation.roomViewHeight ∧
    (navigateToRoom roomId s).navEndTarget.y = CONFIG.navigation.lookAtHeight ∧
    CONFIG.navigation.roomViewHeight = 4 ∧
    CONFIG.navigation.lookAtHeight = 3 := by
  unfold navigateToRoom
  rw [h]
  exact ⟨rfl, rfl, rfl, rfl⟩

/-- Witness for C10 at the concrete room `"historical"`. -/
theorem navigateToRoom_fixed_heights_witness :
    roomPositions "historical" = some ⟨-10, 0, .right⟩ ∧
    ((navigateToRoom "historical" initNavState).navEndPos.y
        = CONFIG.navigation.roomViewHeight ∧
     (navigateToRoom "historical" initNavState).navEndTarget.y
        = CONFIG.navigation.lookAtHeight ∧
     CONFIG.navigation.roomViewHeight = 4 ∧
     CONFIG.navigation.lookAtHeight = 3) :=
  ⟨by decide,
   navigateToRoom_fixed_heights "historical" ⟨-10, 0, .right⟩ initNavState (by decide)⟩

/-- C5: when a tick takes the progress to (or past) `1`, the camera pose is
snapped exactly to the destination pose, the progress is clamped to `1`,
navigation is marked inactive, and a further tick changes nothing at all. -/
theorem updateNavigation_completion_idempotent (s : NavState)
    (h1 : s.isNavigating = true) (h2 : s.navigationTarget.isSome)
    (h3 : (1 : ℚ) ≤ s.navProgress + 3/250) :
    (updateNavigation s).cameraPos = s.navEndPos ∧
    (updateNavigation s).controlsTarget = s.navEndTarget ∧
    (updateNavigation s).navProgress = 1 ∧
    (updateNavigation s).isNavigating = false ∧
    updateNavigation (updateNavigation s) = updateNavigation s := by
  obtain ⟨tgt, htgt⟩ := Option.isSome_iff_exists.mp h2
  have hstep :
      (updateNavigation s).cameraPos = s.navEndPos ∧
      (updateNavigation s).controlsTarget = s.navEndTarget ∧
      (updateNavigation s).navProgress = 1 ∧
      (updateNavigation s).isNavigating = false := by
    unfold updateNavigation
    simp [h1, htgt, ge_iff_le, h3]
  exact ⟨hstep.1, hstep.2.1, hstep.2.2.1, hstep.2.2.2,
    updateNavigation_inactive _ hstep.2.2.2⟩

/-- Witness for C5: a transition to `"historical"` at progress `0.999`. -/
theorem updateNavigation_completion_idempotent_witness :
    (let s := { navigateToRoom "historical" initNavState with navProgress := 999/1000 }
     s.isNavigating = true ∧ s.navigationTarget.isSome ∧
       (1 : ℚ) ≤ s.navProgress + 3/250 ∧
       ((updateNavigation s).cameraPos = s.navEndPos ∧
        (updateNavigation s).controlsTarget = s.navEndTarget ∧
        (updateNavigation s).navProgress = 1 ∧
        (updateNavigation s).isNavigating = false ∧
        updateNavigation (updateNavigation s) = updateNavigation s)) :=
  ⟨by decide, by decide, by norm_num,
   updateNavigation_completion_idempotent _ (by decide) (by decide) (by norm_num)⟩

/-- C1: a navigation request whose start and end camera positions lie on
strictly opposite sides of the corridor sets `navCrossingSides`, and the
path assigned by the tick, sampled at raw progress `0.5`, has horizontal
coordinate exactly `0` (the hallway waypoint); moreover a tick from raw
progress `0.5 - 0.012` assigns exactly that sampled pose to the camera. -/
theorem crossing_navigation_passes_center (s : NavState) (roomId : String)
    (rp : RoomPos) (h : roomPositions roomId = some rp)
    (hx : (s.cameraPos.x < 0 ∧ 0 < (navigateToRoom roomId s).navEndPos.x) ∨
          (0 < s.cameraPos.x ∧ (navigateToRoom roomId s).navEndPos.x < 0)) :
    (navigateToRoom roomId s).navCrossingSides = true ∧
    (navSample (navigateToRoom roomId s) (1/2)).1.x = 0 ∧
    (updateNavigation
        { navigateToRoom roomId s with navProgress := 1/2 - 3/250 }).cameraPos
      = (navSample (navigateToRoom roomId s) (1/2)).1 := by
  have hcross : (navigateToRoom roomId s).navCrossingSides = true := by
    unfold navigateToRoom at hx ⊢
    rw [h] at hx ⊢
    exact decide_eq_true hx
  have hstart : (navigateToRoom roomId s).isNavigating = true := by
    unfold navigateToRoom
    rw [h]
  have htgt : (navigateToRoom roomId s).navigationTarget
      = some ((navigateToRoom roomId s).navEndPos, (navigateToRoom roomId s).navEndTarget) := by
    unfold navigateToRoom
    rw [h]
  have hease : easeInOutQuad (1/2) = 1/2 := by
    unfold easeInOutQuad
    norm_num
  have hmid : (navSample (navigateToRoom roomId s) (1/2)).1.x = 0 := by
    unfold navSample
    rw [hease, hcross]
    norm_num [lerpVectors]
  refine ⟨hcross, hmid, ?_⟩
  have hprog : ({ navigateToRoom roomId s with navProgress := 1/2 - 3/250 } :
      NavState).navProgress + 3/250 = 1/2 := by
    show (1/2 - 3/250 : ℚ) + 3/250 = 1/2
    norm_num
  have hlt : ¬ (1 : ℚ) ≤ ({ navigateToRoom roomId s with navProgress := 1/2 - 3/250 } :
      NavState).navProgress + 3/250 := by
    rw [hprog]
    norm_num
  have hpose := updateNavigation_active_pose
    { navigateToRoom roomId s with navProgress := 1/2 - 3/250 }
    ((navigateToRoom roomId s).navEndPos, (navigateToRoom roomId s).navEndTarget)
    hstart htgt hlt
  rw [hpose.1, hprog]
  rfl

/-- The `"historical"` viewing pose (camera at x = -2), used as the concrete
start of the C1 witness transition. -/
def navWitnessState : NavState :=
  { initNavState with cameraPos := ⟨-2, 4, 0⟩ }

/-- Witness for C1: from the `"historical"` viewing pose (camera x = -2) to
the `"singers"` room (destination camera x = 2). -/
theorem crossing_navigation_passes_center_witness :
    roomPositions "singers" = some ⟨10, -14, .left⟩ ∧
    (navWitnessState.cameraPos.x < 0 ∧
      0 < (navigateToRoom "singers" navWitnessState).navEndPos.x) ∧
    ((navigateToRoom "singers" navWitnessState).navCrossingSides = true ∧
     (navSample (navigateToRoom "singers" navWitnessState) (1/2)).1.x = 0 ∧
     (updateNavigation
         { navigateToRoom "singers" navWitnessState with
             navProgress := 1/2 - 3/250 }).cameraPos
       = (navSample (navigateToRoom "singers" navWitnessState) (1/2)).1) := by
  have hroom : roomPositions "singers" = some ⟨10, -14, .left⟩ := by decide
  have hstart : navWitnessState.cameraPos.x < 0 := by
    show (-2 : ℚ) < 0
    norm_num
  have hend : 0 < (navigateToRoom "singers" navWitnessState).navEndPos.x := by
    unfold navigateToRoom
    rw [hroom]
    show (0 : ℚ) < 10 - 8
    norm_num
  exact ⟨hroom, ⟨hstart, hend⟩,
    crossing_navigation_passes_center navWitnessState "singers" ⟨10, -14, .left⟩
      hroom (Or.inl ⟨hstart, hend⟩)⟩

/-! ## Interaction layer: `src/js/interactions.js` and `src/js/portraits.js` -/

/-- Truncated remainder, the semantics of the JavaScript `%` operator on
integer operands: `a % n = a - n * trunc(a / n)`. -/
def jsRem (a n : ℤ) : ℤ := a - n * Int.tdiv a n

/-- JavaScript array read `arr[i]`: `undefined` (`none`) when `i` is negative
or out of bounds. -/
def jsGet {α : Type} (l : List α) (i : ℤ) : Option α :=
  if 0 ≤ i then l.get? i.toNat else none

/-- A clickable portrait mesh in the `exhibits` array: its name (which is
unique and stands for the JavaScript object identity), the world position
`getWorldPosition` reports, and its `userData.facing`. -/
structure Exhibit where
  id : String
  worldPos : Vec3
  facing : Facing
deriving DecidableEq, Repr

/-- `Array.prototype.indexOf`: the index of the element, `-1` when absent.
JavaScript compares the exhibit objects with `===` (reference identity);
portrait names are unique, so identity is embedded as name equality. -/
def jsIndexOf (l : List Exhibit) (e : Exhibit) : ℤ :=
  match l.findIdx? (fun x => x.id == e.id) with
  | some n => (n : ℤ)
  | none => -1

/-- The `for … of Object.entries(roomPositions)` loop of
`getRoomFromPortrait` (`src/js/interactions.js` lines 39-46): skip
`entrance` (`continue`), return the first room whose anchor is within `8`
of the portrait world position in both x and z. -/
def roomScan (portrait : Exhibit) : List (String × RoomPos) → Option String
  | [] => none
  | e :: rest =>
    if e.1 ≠ "entrance" ∧ |portrait.worldPos.x - e.2.x| < 8 ∧
        |portrait.worldPos.z - e.2.z| < 8
    then some e.1 else roomScan portrait rest

/-- `getRoomFromPortrait(portrait)` from `src/js/interactions.js`
(lines 34-48): scan the room table in entry order; `null` when no room
matches. -/
def getRoomFromPortrait (portrait : Exhibit) : Option String :=
  roomScan portrait roomPositionsList

/-- `Portrait.calculatePosition()` from `src/js/portraits.js` (lines 504-525):
`spacing = ROOM_SIZE / 5` with `ROOM_SIZE = CONFIG.room.depth = 12`,
`offset = (position - 1.5) * spacing`, and a facing-dependent wall placement
(`0.15` in from the wall at `ROOM_SIZE / 2`). -/
def calculatePosition (roomX roomZ : ℚ) (facing : Facing) (positionIndex : ℚ) :
    ℚ × ℚ :=
  let spacing : ℚ := 12 / 5
  let offset := (positionIndex - 3/2) * spacing
  match facing with
  | .right => (roomX - 12/2 + 3/20, roomZ + offset)
  | .left  => (roomX + 12/2 - 3/20, roomZ + offset)
  | .front => (roomX + offset, roomZ - 12/2 + 3/20)

/-- World position of the clickable portrait mesh after `Portrait.build()`
(`src/js/portraits.js` lines 631-644): the group sits at
`(x, PORTRAIT_Y, z)` with `PORTRAIT_Y = heightFromFloor + height/2 = 2.5`,
and the mesh is offset `FRAME_DEPTH/2 + 0.01 = 0.07` along the group local
z axis, which `rotationY` (`π/2` right, `-π/2` left, `0` front) maps to
world `+x`, `-x`, `+z` respectively. -/
def portraitMeshWorldPos (roomX roomZ : ℚ) (facing : Facing)
    (positionIndex : ℚ) : Vec3 :=
  let xz := calculatePosition roomX roomZ facing positionIndex
  match facing with
  | .right => ⟨xz.1 + 7/100, 5/2, xz.2⟩
  | .left  => ⟨xz.1 - 7/100, 5/2, xz.2⟩
  | .front => ⟨xz.1, 5/2, xz.2 + 7/100⟩

/-- Builds one `exhibits` entry from a `portraitData` record. -/
def mkExhibit (name : String) (roomX roomZ : ℚ) (facing : Facing)
    (positionIndex : ℚ) : Exhibit :=
  ⟨name, portraitMeshWorldPos roomX roomZ facing positionIndex, facing⟩

/-- The `exhibits` array of `src/js/portraits.js` after `buildAllPortraits()`:
the 24 portrait meshes in `portraitData` insertion order (rooms are built in
first-seen order and the portraits of each room in data order, so the push order
is the data order). -/
def exhibits : List Exhibit :=
  [ mkExhibit "Skënderbeu" (-10) 0 .right 0,
    mkExhibit "Ismail Qemali" (-10) 0 .right 1,
    mkExhibit "Isa Boletini" (-10) 0 .right 2,
    mkExhibit "Adem Jashari" (-10) 0 .right 3,
    mkExhibit "Ismail Kadare" (-10) (-14) .right 0,
    mkExhibit "Ibrahim Rugova" (-10) (-14) .right 1,
    mkExhibit "Sami Frashëri" (-10) (-14) .right 2,
    mkExhibit "Naim Frashëri" (-10) (-14) .right 3,
    mkExhibit "John Belushi" (-10) (-28) .right 0,
    mkExhibit "Faruk Begolli" (-10) (-28) .right 1,
    mkExhibit "Bekim Fehmiu" (-10) (-28) .right 2,
    mkExhibit "Jim Belushi" (-10) (-28) .right 3,
    mkExhibit "Mother Teresa" 10 0 .left 0,
    mkExhibit "Ferid Murad" 10 0 .left 1,
    mkExhibit "Behgjet Pacolli" 10 0 .left 2,
    mkExhibit "Ermonela Jaho" 10 0 .left 3,
    mkExhibit "Rita Ora" 10 (-14) .left 0,
    mkExhibit "Dua Lipa" 10 (-14) .left 1,
    mkExhibit "Inva Mula" 10 (-14) .left 2,
    mkExhibit "Nexhmije Pagarusha" 10 (-14) .left 3,
    mkExhibit "Independence 1912" 10 (-28) .left 0,
    mkExhibit "League of Prizren" 10 (-28) .left 1,
    mkExhibit "Alphabet Congress" 10 (-28) .left 2,
    mkExhibit "Kosovo Independence" 10 (-28) .left 3 ]

/-- The module-level interaction state of `src/js/interactions.js`
(lines 12-18) together with the DOM effects the handlers perform
(`controls.enable…`, panel/counter visibility) and the navigation state.
A JavaScript `undefined`/`null` focus target is `none`. -/
structure IState where
  focusTarget : Option Exhibit
  isLocked : Bool
  currentPortraitIndex : ℤ
  isTouring : Bool
  tourIntervalSet : Bool
  pendingPortraitFocus : Option (Exhibit × ℤ)
  enableRotate : Bool
  enablePan : Bool
  enableZoom : Bool
  infoVisible : Bool
  counterVisible : Bool
  nav : NavState
deriving DecidableEq, Repr

/-- The interaction state at startup. -/
def initIState : IState :=
  { focusTarget := none
    isLocked := false
    currentPortraitIndex := 0
    isTouring := false
    tourIntervalSet := false
    pendingPortraitFocus := none
    enableRotate := true
    enablePan := true
    enableZoom := true
    infoVisible := false
    counterVisible := false
    nav := initNavState }

/-- `clearFocus()` from `src/js/interactions.js` (lines 53-63). -/
def clearFocus (s : IState) : IState :=
  if s.isLocked then
    { s with
      isLocked := false
      focusTarget := none
      enableRotate := true
      enablePan := true
      enableZoom := true
      infoVisible := false
      counterVisible := false }
  else s

/-- `navigateToRoom(roomId, clearFocusCallback)` seen from the interaction
layer: after the room lookup succeeds the callback (when passed) runs
`clearFocus`, then the navigation-state effects of `navigateToRoom` apply. -/
def navigateToRoomWith (roomId : String) (withClearFocusCb : Bool)
    (s : IState) : IState :=
  match roomPositions roomId with
  | none => s
  | some _ =>
    let s1 := if withClearFocusCb then clearFocus s else s
    { s1 with nav := navigateToRoom roomId s1.nav }

/-- `clearFocusAndGoToRoom()` from `src/js/interactions.js` (lines 68-78). -/
def clearFocusAndGoToRoom (s : IState) : IState :=
  if s.isLocked then
    match s.focusTarget with
    | some t =>
      let roomId := getRoomFromPortrait t
      let s1 := clearFocus s
      match roomId with
      | some r => navigateToRoomWith r false s1
      | none => s1
    | none => clearFocus s
  else clearFocus s

/-- The body of the window `click` handler (`src/js/interactions.js`
lines 185-208) when the raycast hits an exhibit object `hit`. -/
def clickFocus (exs : List Exhibit) (hit : Exhibit) (s : IState) : IState :=
  { s with
    focusTarget := some hit
    isLocked := true
    currentPortraitIndex := jsIndexOf exs hit + 1
    enableRotate := false
    enablePan := false
    enableZoom := false
    counterVisible := true
    infoVisible := true }

/-- `showNextPortrait()` from `src/js/interactions.js` (lines 146-175), the
initial tour call and interval callback.  Mutations happen in source
order; when `exhibits[currentPortraitIndex]` is `undefined`,
`updateInfoPanel(focusTarget)` reads `undefined.userData` and throws, so the
call returns `(state-at-throw, true)` with the index not yet advanced and
the wrap-around stop not yet scheduled.  The completion stop that the wrap
schedules via `setTimeout` only resets `isTouring`/the interval/button UI
and is embedded separately as `tourStop`. -/
def showNextPortrait (exs : List Exhibit) (s : IState) : IState × Bool :=
  if !s.isTouring then (s, false)
  else
    let ft := jsGet exs s.currentPortraitIndex
    let s1 :=
      { s with
        focusTarget := ft
        isLocked := true
        counterVisible := true
        enableRotate := false
        enablePan := false
        enableZoom := false
        infoVisible := true }
    match ft with
    | none => (s1, true)
    | some _ =>
      ({ s1 with
          currentPortraitIndex :=
            jsRem (s.currentPortraitIndex + 1) (exs.length : ℤ) }, false)

/-- The tour button `click` handler (`src/js/interactions.js` lines 131-180).
In the start branch there is no empty-sequence guard: `isTouring` is set,
the index reset, `showNextPortrait()` invoked directly, and only if that
call returns normally is `tourInterval = setInterval(...)` reached. -/
def tourBtnClick (exs : List Exhibit) (s : IState) : IState × Bool :=
  if s.isTouring then
    ({ s with isTouring := false, tourIntervalSet := false }, false)
  else
    let s1 := { s with isTouring := true, currentPortraitIndex := 0 }
    let r := showNextPortrait exs s1
    if r.2 then r else ({ r.1 with tourIntervalSet := true }, false)

/-- The tour stop: body of the stop branch of the tour button handler, of
the ESC branch, and of the `setTimeout` scheduled when the index wraps. -/
def tourStop (s : IState) : IState :=
  if s.isTouring then { s with isTouring := false, tourIntervalSet := false }
  else s

/-- The index arithmetic of the arrow-key branch of the `keydown` handler in
`src/js/interactions.js` (lines 229-235): `newIndex = currentPortraitIndex - 1`,
then ArrowRight takes `(newIndex - 1 + length) % length` and ArrowLeft takes
`(newIndex + 1) % length`. -/
def stepNewIndex (isArrowRight : Bool) (currentPortraitIndex n : ℤ) : ℤ :=
  let newIndex := currentPortraitIndex - 1
  if isArrowRight then jsRem (newIndex - 1 + n) n else jsRem (newIndex + 1) n

/-- The same index arithmetic in the `src/unnamed/part_001` revision of the
handler (lines 403-409), where the two arrow keys are mapped the other way
around: ArrowRight takes `(newIndex + 1) % length` and ArrowLeft takes
`(newIndex - 1 + length) % length`. -/
def stepNewIndexAlt (isArrowRight : Bool) (currentPortraitIndex n : ℤ) : ℤ :=
  let newIndex := currentPortraitIndex - 1
  if isArrowRight then jsRem (newIndex + 1) n else jsRem (newIndex - 1 + n) n

/-- The truthiness test `currentRoom && newRoom && currentRoom !== newRoom`
of the arrow-key branch (`src/js/interactions.js` line 242). -/
def roomsDifferCheck (currentRoom newRoom : Option String) : Bool :=
  match currentRoom, newRoom with
  | some cr, some nr => cr != nr
  | _, _ => false

/-- The room-change test of the arrow-key branch, evaluated for the step the
key would perform (`currentRoom` from the focus target, `newRoom` from the
prospective new portrait). -/
def arrowRoomsDiffer (exs : List Exhibit) (isArrowRight : Bool)
    (s : IState) : Bool :=
  match jsGet exs (stepNewIndex isArrowRight s.currentPortraitIndex (exs.length : ℤ)) with
  | none => false
  | some newPortrait =>
    roomsDifferCheck (s.focusTarget.bind getRoomFromPortrait)
      (getRoomFromPortrait newPortrait)

/-- The arrow-key branch of the `keydown` handler (`src/js/interactions.js`
lines 228-255).  When `exhibits[newIndex]` is `undefined` (possible only
with an empty sequence), `getRoomFromPortrait(newPortrait)` throws before
any state is mutated.  When the rooms differ the handler clears focus,
records the pending focus and requests navigation; otherwise it switches
the focus target and stores the 1-based index. -/
def arrowKeydown (exs : List Exhibit) (isArrowRight : Bool)
    (s : IState) : IState × Bool :=
  if !s.isLocked then (s, false)
  else
    let newIndex := stepNewIndex isArrowRight s.currentPortraitIndex (exs.length : ℤ)
    match jsGet exs newIndex with
    | none => (s, true)
    | some newPortrait =>
      if arrowRoomsDiffer exs isArrowRight s then
        match getRoomFromPortrait newPortrait with
        | some newRoom =>
          let s1 := clearFocus s
          let s2 := { s1 with pendingPortraitFocus := some (newPortrait, newIndex) }
          (navigateToRoomWith newRoom false s2, false)
        | none => (s, false)
      else
        ({ s with
            focusTarget := some newPortrait
            currentPortraitIndex := newIndex + 1 }, false)

/-- The ESC branch of the `keydown` handler (lines 214-225): stop the tour
when running, then `clearFocusAndGoToRoom()`. -/
def escapeKeydown (s : IState) : IState :=
  clearFocusAndGoToRoom (tourStop s)

/-- The pending-focus application in the render loop (`animate`,
lines 272-293): when a room navigation has just completed and a pending
portrait focus exists, focus it and clear the pending slot. -/
def applyPendingPortraitFocus (s : IState) : IState :=
  match s.pendingPortraitFocus with
  | some pf =>
    { s with
      focusTarget := some pf.1
      currentPortraitIndex := pf.2 + 1
      isLocked := true
      enableRotate := false
      enablePan := false
      enableZoom := false
      counterVisible := true
      infoVisible := true
      pendingPortraitFocus := none }
  | none => s

/-! ## Tour and focus-lock claims -/

/-- C3: in `src/js/interactions.js` the start branch of the tour button has
no empty-sequence guard.  Clicking it with an empty `exhibits` array sets
`isTouring := true`, then `showNextPortrait()` reads `exhibits[0] = undefined`
into the focus target, locks the controls, and throws a `TypeError` in
`updateInfoPanel` — so after the handler the touring flag is `true`, the
lock was created, and only the interval was never installed.  This
contradicts the claimed silent no-op (which the `src/unnamed/part_001`
revision implements with its `exhibits.length === 0` guard). -/
theorem tourStart_empty_not_guarded :
    (tourBtnClick [] initIState).1.isTouring = true ∧
    (tourBtnClick [] initIState).1.isLocked = true ∧
    (tourBtnClick [] initIState).1.focusTarget = none ∧
    (tourBtnClick [] initIState).1.tourIntervalSet = false ∧
    (tourBtnClick [] initIState).2 = true :=
  ⟨rfl, rfl, rfl, rfl, rfl⟩

/-- The last entry of the `exhibits` array (1-based position 24). -/
def exhibit23 : Exhibit := mkExhibit "Kosovo Independence" 10 (-28) .left 3

/-- The interaction state after starting the tour and then clicking the
last portrait while the tour is running: the click stores the 1-based
counter value `24` in `currentPortraitIndex`, which the tour tick reuses
as a 0-based array index. -/
def tourThenClickLast : IState :=
  clickFocus exhibits exhibit23 (tourBtnClick exhibits initIState).1

/-- C6: the locked-iff-focused invariant is violated in a reachable state of
`src/js/interactions.js`.  After `tourThenClickLast` (a state satisfying the
invariant: locked with a focus target), the next tour tick reads
`exhibits[24] = undefined` into `focusTarget` while setting `isLocked := true`
and disabling the controls, then throws in `updateInfoPanel` — leaving a
state that is locked with no focus target.  (The `src/unnamed/part_001`
revision prevents this with its `currentPortraitIndex >= exhibits.length`
guard in the tick.) -/
theorem focusLock_invariant_violated :
    tourThenClickLast.isLocked = true ∧
    tourThenClickLast.focusTarget.isSome = true ∧
    tourThenClickLast.isTouring = true ∧
    tourThenClickLast.currentPortraitIndex = 24 ∧
    (showNextPortrait exhibits tourThenClickLast).1.isLocked = true ∧
    (showNextPortrait exhibits tourThenClickLast).1.focusTarget = none ∧
    (showNextPortrait exhibits tourThenClickLast).1.enableRotate = false ∧
    (showNextPortrait exhibits tourThenClickLast).2 = true := by
  refine ⟨rfl, rfl, rfl, by decide, rfl, rfl, rfl, rfl⟩

/-! ## Arrow-key stepping: arithmetic helpers -/

/-- For nonnegative dividend and divisor the JavaScript remainder agrees
with the Euclidean remainder. -/
theorem jsRem_eq_emod (a n : ℤ) (ha : 0 ≤ a) (hn : 0 ≤ n) : jsRem a n = a % n := by
  unfold jsRem
  rw [Int.tdiv_eq_ediv ha hn]
  exact (Int.emod_def a n).symm

/-- ArrowLeft in `src/js/interactions.js` steps the stored 1-based index
`i + 1` to the 0-based successor `(i + 1) % n`. -/
theorem stepNewIndex_left (i n : ℤ) (h0 : 0 ≤ i) (hn : 1 ≤ n) :
    stepNewIndex false (i + 1) n = (i + 1) % n := by
  show jsRem (i + 1 - 1 + 1) n = (i + 1) % n
  have h : i + 1 - 1 + 1 = i + 1 := by ring
  rw [h]
  exact jsRem_eq_emod _ _ (by omega) (by omega)

/-- ArrowRight in `src/js/interactions.js` steps the stored 1-based index
`i + 1` to the 0-based predecessor `(i - 1 + n) % n`. -/
theorem stepNewIndex_right (i n : ℤ) (h0 : 0 ≤ i) (hn : 1 ≤ n) :
    stepNewIndex true (i + 1) n = (i - 1 + n) % n := by
  show jsRem (i + 1 - 1 - 1 + n) n = (i - 1 + n) % n
  have h : i + 1 - 1 - 1 + n = i - 1 + n := by ring
  rw [h]
  exact jsRem_eq_emod _ _ (by omega) (by omega)

/-- The two arrow directions are mutually inverse on 0-based indices in
`[0, n)` (each stores `newIndex + 1` as the next 1-based index). -/
theorem stepNewIndex_inverse (d : Bool) (i n : ℤ) (h0 : 0 ≤ i) (hin : i < n) :
    stepNewIndex (!d) (stepNewIndex d (i + 1) n + 1) n = i := by
  have hn : 1 ≤ n := by omega
  have hnz : n ≠ 0 := by omega
  cases d with
  | false =>
    rw [stepNewIndex_left i n h0 hn, Bool.not_false,
      stepNewIndex_right ((i + 1) % n) n (Int.emod_nonneg _ hnz) hn]
    have h1 : (i + 1) % n - 1 + n = (i + 1) % n + (n - 1) := by ring
    rw [h1, Int.emod_add_emod]
    have h2 : i + 1 + (n - 1) = i + n * 1 := by ring
    rw [h2, Int.add_mul_emod_self_left]
    exact Int.emod_eq_of_lt h0 hin
  | true =>
    rw [stepNewIndex_right i n h0 hn, Bool.not_true,
      stepNewIndex_left ((i - 1 + n) % n) n (Int.emod_nonneg _ hnz) hn]
    rw [Int.emod_add_emod]
    have h2 : i - 1 + n + 1 = i + n * 1 := by ring
    rw [h2, Int.add_mul_emod_self_left]
    exact Int.emod_eq_of_lt h0 hin

/-- Repeated same-room arrow presses: each press stores the 0-based step
result plus one as the new `currentPortraitIndex`. -/
def stepIter (isArrowRight : Bool) (n : ℤ) (c : ℤ) : ℕ → ℤ
  | 0 => c
  | k + 1 => stepNewIndex isArrowRight (stepIter isArrowRight n c k) n + 1

/-- `k` ArrowLeft presses from 0-based index `i` land on `(i + k) % n`:
ascending visiting order. -/
theorem stepIter_left (i n : ℤ) (h0 : 0 ≤ i) (hin : i < n) (k : ℕ) :
    stepIter false n (i + 1) k = (i + k) % n + 1 := by
  have hnz : n ≠ 0 := by omega
  have hn : 1 ≤ n := by omega
  induction k with
  | zero =>
    show i + 1 = (i + 0) % n + 1
    rw [add_zero, Int.emod_eq_of_lt h0 hin]
  | succ k ih =>
    show stepNewIndex false (stepIter false n (i + 1) k) n + 1 = (i + (k + 1 : ℕ)) % n + 1
    rw [ih, stepNewIndex_left ((i + k) % n) n (Int.emod_nonneg _ hnz) hn,
      Int.emod_add_emod]
    congr 2 <;> push_cast <;> ring

/-- `k` ArrowRight presses from 0-based index `i` land on `(i - k) % n`:
descending visiting order. -/
theorem stepIter_right (i n : ℤ) (h0 : 0 ≤ i) (hin : i < n) (k : ℕ) :
    stepIter true n (i + 1) k = (i - k) % n + 1 := by
  have hnz : n ≠ 0 := by omega
  have hn : 1 ≤ n := by omega
  induction k with
  | zero =>
    show i + 1 = (i - 0) % n + 1
    rw [sub_zero, Int.emod_eq_of_lt h0 hin]
  | succ k ih =>
    show stepNewIndex true (stepIter true n (i + 1) k) n + 1 = (i - (k + 1 : ℕ)) % n + 1
    rw [ih, stepNewIndex_right ((i - k) % n) n (Int.emod_nonneg _ hnz) hn]
    have h1 : (i - k) % n - 1 + n = (i - k) % n + (n - 1) := by ring
    rw [h1, Int.emod_add_emod]
    have h2 : i - k + (n - 1) = (i - (k + 1)) + n * 1 := by ring
    rw [h2, Int.add_mul_emod_self_left]
    congr 2 <;> push_cast <;> ring

/-- Evaluation of the arrow-key handler in the same-room case: when locked,
the prospective portrait exists, and the room-change test is false, the
handler just stores the new portrait and its 1-based index. -/
theorem arrowKeydown_sameRoom (exs : List Exhibit) (d : Bool) (s : IState)
    (newPortrait : Exhibit) (hl : s.isLocked = true)
    (hget : jsGet exs (stepNewIndex d s.currentPortraitIndex (exs.length : ℤ))
      = some newPortrait)
    (hdif : arrowRoomsDiffer exs d s = false) :
    arrowKeydown exs d s =
      ({ s with
          focusTarget := some newPortrait
          currentPortraitIndex :=
            stepNewIndex d s.currentPortraitIndex (exs.length : ℤ) + 1 }, false) := by
  unfold arrowKeydown
  rw [hl]
  simp only [Bool.not_true, Bool.false_eq_true, if_false, hget, hdif]

/-- The first two portraits of the Historical Figures room. -/
def exhibit0 : Exhibit := mkExhibit "Skënderbeu" (-10) 0 .right 0

/-- The second portrait of the Historical Figures room. -/
def exhibit1 : Exhibit := mkExhibit "Ismail Qemali" (-10) 0 .right 1

/-- The 0-based index-22 portrait (Historical Events room). -/
def exhibit22 : Exhibit := mkExhibit "Alphabet Congress" 10 (-28) .left 2

/-- Room resolution of `exhibit0`: the Historical Figures room. -/
theorem roomOf_exhibit0 : getRoomFromPortrait exhibit0 = some "historical" := by
  norm_num [getRoomFromPortrait, roomScan, roomPositionsList, exhibit0, mkExhibit,
    portraitMeshWorldPos, calculatePosition, abs_lt] <;> decide

/-- Room resolution of `exhibit1`: the Historical Figures room. -/
theorem roomOf_exhibit1 : getRoomFromPortrait exhibit1 = some "historical" := by
  norm_num [getRoomFromPortrait, roomScan, roomPositionsList, exhibit1, mkExhibit,
    portraitMeshWorldPos, calculatePosition, abs_lt] <;> decide

/-- Room resolution of `exhibit22`: the Historical Events room. -/
theorem roomOf_exhibit22 : getRoomFromPortrait exhibit22 = some "events" := by
  norm_num [getRoomFromPortrait, roomScan, roomPositionsList, exhibit22, mkExhibit,
    portraitMeshWorldPos, calculatePosition, abs_lt] <;> decide

/-- Room resolution of `exhibit23`: the Historical Events room. -/
theorem roomOf_exhibit23 : getRoomFromPortrait exhibit23 = some "events" := by
  norm_num [getRoomFromPortrait, roomScan, roomPositionsList, exhibit23, mkExhibit,
    portraitMeshWorldPos, calculatePosition, abs_lt] <;> decide

/-- Focused by click on the last exhibit of the built museum
(`currentPortraitIndex = 24`). -/
def clickLastState : IState := clickFocus exhibits exhibit23 initIState

/-- C2 (counterexample): with the built 24-exhibit sequence focused on the
last exhibit (0-based index 23), pressing ArrowRight in
`src/js/interactions.js` computes 0-based index 22 and stores the 1-based
index 23 — not index 0 (stored 1) as demanded by the claim reading "ArrowRight steps to the
next exhibit, wrapping the last index to 0" demands. -/
theorem arrowRight_at_last_index_cex :
    stepNewIndex true 24 24 = 22 ∧
    (arrowKeydown exhibits true clickLastState).2 = false ∧
    (arrowKeydown exhibits true clickLastState).1.currentPortraitIndex = 23 ∧
    ¬ (arrowKeydown exhibits true clickLastState).1.currentPortraitIndex = 1 := by
  have hdif : arrowRoomsDiffer exhibits true clickLastState = false := by
    show roomsDifferCheck (getRoomFromPortrait exhibit23)
      (getRoomFromPortrait exhibit22) = false
    rw [roomOf_exhibit23, roomOf_exhibit22]
    rfl
  have hstep := arrowKeydown_sameRoom exhibits true clickLastState exhibit22 rfl rfl hdif
  rw [hstep]
  exact ⟨by decide, rfl, by decide, by decide⟩

/-- C2 (amended): the `part_001` arrow handler is the `src/js` handler with
the two keys swapped.  In `src/js/interactions.js` ArrowLeft is the
ascending ("next") step and ArrowRight the descending ("previous") one;
both wrap modulo the sequence length `n ≥ 1` and never leave `[0, n)`:
ArrowLeft at the last index yields 0, ArrowRight at index 0 yields the last
index, and `k` repeated presses visit the indices in ascending respectively
descending order. -/
theorem stepIndex_wraparound_amended :
    (∀ (d : Bool) (c n : ℤ), stepNewIndexAlt d c n = stepNewIndex (!d) c n) ∧
    (∀ n : ℤ, 1 ≤ n →
      stepNewIndex false n n = 0 ∧
      stepNewIndex true 1 n = n - 1 ∧
      (∀ i : ℤ, 0 ≤ i → i < n →
        stepNewIndex false (i + 1) n = (i + 1) % n ∧
        stepNewIndex true (i + 1) n = (i - 1 + n) % n ∧
        0 ≤ stepNewIndex false (i + 1) n ∧ stepNewIndex false (i + 1) n < n ∧
        0 ≤ stepNewIndex true (i + 1) n ∧ stepNewIndex true (i + 1) n < n) ∧
      (∀ i : ℤ, 0 ≤ i → i < n → ∀ k : ℕ,
        stepIter false n (i + 1) k = (i + k) % n + 1 ∧
        stepIter true n (i + 1) k = (i - k) % n + 1)) := by
  constructor
  · intro d c n
    cases d <;> rfl
  · intro n hn
    have hnz : n ≠ 0 := by omega
    have hpos : 0 < n := by omega
    refine ⟨?_, ?_, ?_, ?_⟩
    · have h := stepNewIndex_left (n - 1) n (by omega) hn
      have he : n - 1 + 1 = n := by ring
      rw [he] at h
      rw [h]
      exact Int.emod_self
    · have h := stepNewIndex_right 0 n le_rfl hn
      have he1 : (0 : ℤ) + 1 = 1 := by ring
      have he2 : (0 : ℤ) - 1 + n = n - 1 := by ring
      rw [he1, he2] at h
      rw [h]
      exact Int.emod_eq_of_lt (by omega) (by omega)
    · intro i h0 hin
      have hl := stepNewIndex_left i n h0 hn
      have hr := stepNewIndex_right i n h0 hn
      refine ⟨hl, hr, ?_, ?_, ?_, ?_⟩
      · rw [hl]
        exact Int.emod_nonneg _ hnz
      · rw [hl]
        exact Int.emod_lt_of_pos _ hpos
      · rw [hr]
        exact Int.emod_nonneg _ hnz
      · rw [hr]
        exact Int.emod_lt_of_pos _ hpos
    · intro i h0 hin k
      exact ⟨stepIter_left i n h0 hin k, stepIter_right i n h0 hin k⟩

/-- Witness for the amended C2 at `n = 3`: swapped bindings, boundary
wrap-around in both directions, and two ascending ArrowLeft presses. -/
theorem stepIndex_wraparound_amended_witness :
    stepNewIndexAlt true 3 3 = stepNewIndex false 3 3 ∧
    (1 : ℤ) ≤ 3 ∧
    stepNewIndex false 3 3 = 0 ∧
    stepNewIndex true 1 3 = 3 - 1 ∧
    ((0 : ℤ) ≤ 1 ∧ (1 : ℤ) < 3 ∧
      stepNewIndex false (1 + 1) 3 = (1 + 1) % 3 ∧
      stepIter false 3 (1 + 1) 2 = (1 + 2) % 3 + 1) := by
  have h := stepIndex_wraparound_amended
  refine ⟨h.1 true 3 3, by norm_num, (h.2 3 (by norm_num)).1,
    (h.2 3 (by norm_num)).2.1, by norm_num, by norm_num,
    ((h.2 3 (by norm_num)).2.2.1 1 (by norm_num) (by norm_num)).1, ?_⟩
  exact ((h.2 3 (by norm_num)).2.2.2 1 (by norm_num) (by norm_num) 2).1

/-- C8: while stepping stays inside one room (the room-change test is false
for both presses), an arrow press followed by the opposite press returns
both the stored index and the focus target to their original values, and
neither press throws. -/
theorem stepIndex_next_prev_roundtrip (exs : List Exhibit) (s : IState)
    (i : ℕ) (t0 : Exhibit) (d : Bool)
    (hl : s.isLocked = true)
    (hf : s.focusTarget = some t0)
    (hc : s.currentPortraitIndex = (i : ℤ) + 1)
    (hi : i < exs.length)
    (ht : jsGet exs (i : ℤ) = some t0)
    (h1 : arrowRoomsDiffer exs d s = false)
    (h2 : arrowRoomsDiffer exs (!d) (arrowKeydown exs d s).1 = false) :
    (arrowKeydown exs d s).2 = false ∧
    (arrowKeydown exs (!d) (arrowKeydown exs d s).1).2 = false ∧
    (arrowKeydown exs (!d) (arrowKeydown exs d s).1).1.currentPortraitIndex
      = s.currentPortraitIndex ∧
    (arrowKeydown exs (!d) (arrowKeydown exs d s).1).1.focusTarget
      = s.focusTarget := by
  have hlen : 0 < exs.length := lt_of_le_of_lt (Nat.zero_le i) hi
  have hn : 1 ≤ (exs.length : ℤ) := by exact_mod_cast hlen
  have hi0 : (0 : ℤ) ≤ (i : ℤ) := Int.natCast_nonneg i
  have hiN : (i : ℤ) < (exs.length : ℤ) := by exact_mod_cast hi
  have hnz : (exs.length : ℤ) ≠ 0 := by omega
  have hpos : (0 : ℤ) < (exs.length : ℤ) := by omega
  have hj01 : 0 ≤ stepNewIndex d ((i : ℤ) + 1) (exs.length : ℤ) ∧
      stepNewIndex d ((i : ℤ) + 1) (exs.length : ℤ) < (exs.length : ℤ) := by
    cases d with
    | false =>
      rw [stepNewIndex_left i _ hi0 hn]
      exact ⟨Int.emod_nonneg _ hnz, Int.emod_lt_of_pos _ hpos⟩
    | true =>
      rw [stepNewIndex_right i _ hi0 hn]
      exact ⟨Int.emod_nonneg _ hnz, Int.emod_lt_of_pos _ hpos⟩
  have htoNat : (stepNewIndex d ((i : ℤ) + 1) (exs.length : ℤ)).toNat < exs.length := by
    omega
  have ht1 : jsGet exs (stepNewIndex d ((i : ℤ) + 1) (exs.length : ℤ))
      = some (exs.get ⟨(stepNewIndex d ((i : ℤ) + 1) (exs.length : ℤ)).toNat, htoNat⟩) := by
    unfold jsGet
    rw [if_pos hj01.1]
    exact List.get?_eq_get htoNat
  have hget1 : jsGet exs (stepNewIndex d s.currentPortraitIndex (exs.length : ℤ))
      = some (exs.get ⟨(stepNewIndex d ((i : ℤ) + 1) (exs.length : ℤ)).toNat, htoNat⟩) := by
    rw [hc]
    exact ht1
  have hstep1 := arrowKeydown_sameRoom exs d s
    (exs.get ⟨(stepNewIndex d ((i : ℤ) + 1) (exs.length : ℤ)).toNat, htoNat⟩) hl hget1 h1
  have hl1 : (arrowKeydown exs d s).1.isLocked = true := by
    rw [hstep1]
    exact hl
  have hc1 : (arrowKeydown exs d s).1.currentPortraitIndex
      = stepNewIndex d ((i : ℤ) + 1) (exs.length : ℤ) + 1 := by
    rw [hstep1]
    show stepNewIndex d s.currentPortraitIndex (exs.length : ℤ) + 1 = _
    rw [hc]
  have hinv := stepNewIndex_inverse d (i : ℤ) (exs.length : ℤ) hi0 hiN
  have hget2 : jsGet exs
      (stepNewIndex (!d) (arrowKeydown exs d s).1.currentPortraitIndex (exs.length : ℤ))
      = some t0 := by
    rw [hc1, hinv]
    exact ht
  have hstep2 := arrowKeydown_sameRoom exs (!d) (arrowKeydown exs d s).1 t0 hl1 hget2 h2
  refine ⟨?_, ?_, ?_, ?_⟩
  · rw [hstep1]
  · rw [hstep2]
  · rw [hstep2]
    show stepNewIndex (!d) (arrowKeydown exs d s).1.currentPortraitIndex
      (exs.length : ℤ) + 1 = s.currentPortraitIndex
    rw [hc1, hinv, hc]
  · rw [hstep2]
    show some t0 = s.focusTarget
    rw [hf]

/-- Locked by click on the second Historical Figures portrait
(`currentPortraitIndex = 2`), start of the C8 witness round trip. -/
def roundtripState : IState :=
  { initIState with
    focusTarget := some exhibit1
    isLocked := true
    currentPortraitIndex := 2 }

/-- Witness for C8: ArrowRight then ArrowLeft from the second Historical
Figures portrait (both steps stay in the `historical` room) restore the
stored index `2` and the focus target. -/
theorem stepIndex_next_prev_roundtrip_witness :
    roundtripState.isLocked = true ∧
    roundtripState.focusTarget = some exhibit1 ∧
    roundtripState.currentPortraitIndex = ((1 : ℕ) : ℤ) + 1 ∧
    1 < exhibits.length ∧
    jsGet exhibits ((1 : ℕ) : ℤ) = some exhibit1 ∧
    arrowRoomsDiffer exhibits true roundtripState = false ∧
    arrowRoomsDiffer exhibits (!true) (arrowKeydown exhibits true roundtripState).1 = false ∧
    ((arrowKeydown exhibits true roundtripState).2 = false ∧
     (arrowKeydown exhibits (!true) (arrowKeydown exhibits true roundtripState).1).2 = false ∧
     (arrowKeydown exhibits (!true)
         (arrowKeydown exhibits true roundtripState).1).1.currentPortraitIndex
       = roundtripState.currentPortraitIndex ∧
     (arrowKeydown exhibits (!true)
         (arrowKeydown exhibits true roundtripState).1).1.focusTarget
       = roundtripState.focusTarget) := by
  have h1 : arrowRoomsDiffer exhibits true roundtripState = false := by
    show roomsDifferCheck (getRoomFromPortrait exhibit1)
      (getRoomFromPortrait exhibit0) = false
    rw [roomOf_exhibit1, roomOf_exhibit0]
    rfl
  have hstep1 := arrowKeydown_sameRoom exhibits true roundtripState exhibit0 rfl rfl h1
  have h2 : arrowRoomsDiffer exhibits (!true)
      (arrowKeydown exhibits true roundtripState).1 = false := by
    rw [hstep1]
    show roomsDifferCheck (getRoomFromPortrait exhibit0)
      (getRoomFromPortrait exhibit1) = false
    rw [roomOf_exhibit0, roomOf_exhibit1]
    rfl
  exact ⟨rfl, rfl, by decide, by decide, rfl, h1, h2,
    stepIndex_next_prev_roundtrip exhibits roundtripState 1 exhibit1 true rfl rfl
      (by decide) (by decide) rfl h1 h2⟩

end Museum
